import Mathlib

/-!
Verification development for the WhirlyGlobe rendering-resource core:
a shallow embedding of the OpenGL ES texture lifecycle
(common/WhirlyGlobeLib/src/TextureGLES.cpp) and of the geometry
scene-representation table (common/WhirlyGlobeLib/include/GeometryManager.h),
with theorems settling the behavioural claims about format resolution,
PKM header parsing, create/destroy idempotence and size validation.

Machine integers are modelled as Nat: every quantity involved (byte counts,
pixel dimensions read from 16-bit big-endian fields, GL enum values) is
non-negative, and signed overflow in the source would be undefined behaviour
rather than defined wrapping.
-/

namespace WhirlyKit

/-! GL enumerant values (from the OpenGL ES 3 headers) as plain naturals.
GL_NONE = 0 is the explicit unsupported sentinel used by the format maps. -/

def GL_NONE : Nat := 0
def GL_ALPHA : Nat := 0x1906
def GL_RGB : Nat := 0x1907
def GL_RGBA : Nat := 0x1908
def GL_RGBA8 : Nat := 0x8058
def GL_RGB5_A1 : Nat := 0x8057
def GL_RGB565 : Nat := 0x8D62
def GL_R8 : Nat := 0x8229
def GL_RG8 : Nat := 0x822B
def GL_R16F : Nat := 0x822D
def GL_RG16F : Nat := 0x822F
def GL_R32F : Nat := 0x822E
def GL_RG32F : Nat := 0x8230
def GL_RGBA32F : Nat := 0x8814
def GL_DEPTH_COMPONENT32F : Nat := 0x8CAC
def GL_R16I : Nat := 0x8233
def GL_R16UI : Nat := 0x8234
def GL_RG16UI : Nat := 0x823A
def GL_R32UI : Nat := 0x8236
def GL_RG32UI : Nat := 0x823C
def GL_RGBA32UI : Nat := 0x8D70
def GL_RED : Nat := 0x1903
def GL_RED_INTEGER : Nat := 0x8D94
def GL_RG : Nat := 0x8227
def GL_RG_INTEGER : Nat := 0x8228
def GL_RGBA_INTEGER : Nat := 0x8D99
def GL_DEPTH_COMPONENT : Nat := 0x1902
def GL_UNSIGNED_BYTE : Nat := 0x1401
def GL_SHORT : Nat := 0x1402
def GL_UNSIGNED_SHORT : Nat := 0x1403
def GL_UNSIGNED_INT : Nat := 0x1405
def GL_FLOAT : Nat := 0x1406
def GL_HALF_FLOAT : Nat := 0x140B
def GL_UNSIGNED_SHORT_5_6_5 : Nat := 0x8363
def GL_UNSIGNED_SHORT_4_4_4_4 : Nat := 0x8033
def GL_UNSIGNED_SHORT_5_5_5_1 : Nat := 0x8034
def GL_COMPRESSED_RGB8_ETC2 : Nat := 0x9274
def GL_COMPRESSED_RGBA8_ETC2_EAC : Nat := 0x9278
def GL_COMPRESSED_RGB8_PUNCHTHROUGH_ALPHA1_ETC2 : Nat := 0x9276
def GL_COMPRESSED_R11_EAC : Nat := 0x9270
def GL_COMPRESSED_RG11_EAC : Nat := 0x9272
def GL_COMPRESSED_SIGNED_R11_EAC : Nat := 0x9271
def GL_COMPRESSED_SIGNED_RG11_EAC : Nat := 0x9273
def GL_NEAREST : Nat := 0x2600
def GL_LINEAR : Nat := 0x2601
def GL_NEAREST_MIPMAP_LINEAR : Nat := 0x2702
def GL_TEXTURE_MAG_FILTER : Nat := 0x2800
def GL_TEXTURE_MIN_FILTER : Nat := 0x2801
def GL_TEXTURE_WRAP_S : Nat := 0x2802
def GL_TEXTURE_WRAP_T : Nat := 0x2803
def GL_REPEAT : Nat := 0x2901
def GL_CLAMP_TO_EDGE : Nat := 0x812F

/-- The texture pixel-format enumeration (TextureType) as it is exercised by
TextureGLES.cpp: exactly the enumerators named in its switch statements. -/
inductive TextureType
  | TexTypeSingleChannel
  | TexTypeUnsignedByte
  | TexTypeDoubleChannel
  | TexTypeSingleFloat16
  | TexTypeShort5551
  | TexTypeShort4444
  | TexTypeShort565
  | TexTypeSingleInt16
  | TexTypeSingleUInt16
  | TexTypeDoubleUInt16
  | TexTypeDoubleFloat16
  | TexTypeSingleFloat32
  | TexTypeDepthFloat32
  | TexTypeSingleUInt32
  | TexTypeDoubleFloat32
  | TexTypeDoubleUInt32
  | TexTypeQuadFloat16
  | TexTypeQuadFloat32
  | TexTypeQuadUInt32
deriving DecidableEq

/-- Channel source for single-channel textures (WKSingleByteSource). -/
inductive WKSingleByteSource
  | WKSingleAlpha
  | WKSingleRed
  | WKSingleGreen
  | WKSingleBlue
  | WKSingleRGB
deriving DecidableEq

/-- Texture interpolation setting. -/
inductive TexInterpType
  | TexInterpNearest
  | TexInterpLinear
deriving DecidableEq

open TextureType WKSingleByteSource

/-- getBytesPerRow from TextureGLES.cpp: bytes per row of pixel data for a
given format and width (the source default arm, returning GL_NONE, covers
only enumerator values outside the set exercised by this file). -/
def getBytesPerRow (tt : TextureType) (width : Nat) : Nat :=
  match tt with
  | TexTypeSingleChannel
  | TexTypeUnsignedByte  => width * 1
  | TexTypeDoubleChannel
  | TexTypeSingleFloat16
  | TexTypeShort5551
  | TexTypeShort4444
  | TexTypeShort565
  | TexTypeSingleInt16
  | TexTypeSingleUInt16  => width * 2
  | TexTypeDoubleUInt16
  | TexTypeDoubleFloat16
  | TexTypeSingleFloat32
  | TexTypeDepthFloat32
  | TexTypeSingleUInt32  => width * 4
  | TexTypeDoubleFloat32
  | TexTypeDoubleUInt32
  | TexTypeQuadFloat16   => width * 8
  | TexTypeQuadFloat32
  | TexTypeQuadUInt32    => width * 16

/-- mapInternalFormat from TextureGLES.cpp: the internal format of the
native texture; the single-channel case depends on the channel source, and
green/blue/rgb sources resolve to the GL_NONE sentinel. -/
def mapInternalFormat (tt : TextureType) (byteSource : WKSingleByteSource) : Nat :=
  match tt with
  | TexTypeUnsignedByte  => GL_RGBA8
  | TexTypeShort5551     => GL_RGB5_A1
  | TexTypeShort4444     => GL_RGBA
  | TexTypeShort565      => GL_RGB565
  | TexTypeSingleChannel =>
      match byteSource with
      | WKSingleAlpha => GL_ALPHA
      | WKSingleRed   => GL_R8
      | WKSingleGreen => GL_NONE
      | WKSingleBlue  => GL_NONE
      | WKSingleRGB   => GL_NONE
  | TexTypeDoubleChannel => GL_RG8
  | TexTypeSingleFloat16 => GL_R16F
  | TexTypeDoubleFloat16 => GL_RG16F
  | TexTypeQuadFloat16   => GL_HALF_FLOAT
  | TexTypeSingleFloat32 => GL_R32F
  | TexTypeDoubleFloat32 => GL_RG32F
  | TexTypeDepthFloat32  => GL_DEPTH_COMPONENT32F
  | TexTypeQuadFloat32   => GL_RGBA32F
  | TexTypeSingleInt16   => GL_R16I
  | TexTypeSingleUInt16  => GL_R16UI
  | TexTypeDoubleUInt16  => GL_RG16UI
  | TexTypeSingleUInt32  => GL_R32UI
  | TexTypeDoubleUInt32  => GL_RG32UI
  | TexTypeQuadUInt32    => GL_RGBA32UI

/-- mapGLFormat from TextureGLES.cpp: the transfer format of the pixel data;
the single-channel case again sends green/blue/rgb sources to GL_NONE. -/
def mapGLFormat (tt : TextureType) (byteSource : WKSingleByteSource) : Nat :=
  match tt with
  | TexTypeSingleChannel =>
      match byteSource with
      | WKSingleAlpha => GL_ALPHA
      | WKSingleRed   => GL_RED
      | WKSingleGreen => GL_NONE
      | WKSingleBlue  => GL_NONE
      | WKSingleRGB   => GL_NONE
  | TexTypeSingleFloat16
  | TexTypeSingleFloat32 => GL_RED
  | TexTypeSingleInt16
  | TexTypeSingleUInt16
  | TexTypeSingleUInt32  => GL_RED_INTEGER
  | TexTypeDoubleFloat16
  | TexTypeDoubleFloat32 => GL_RG
  | TexTypeDoubleChannel
  | TexTypeDoubleUInt16
  | TexTypeDoubleUInt32  => GL_RG_INTEGER
  | TexTypeShort565      => GL_RGB
  | TexTypeUnsignedByte
  | TexTypeShort4444
  | TexTypeShort5551
  | TexTypeQuadFloat16
  | TexTypeQuadFloat32   => GL_RGBA
  | TexTypeQuadUInt32    => GL_RGBA_INTEGER
  | TexTypeDepthFloat32  => GL_DEPTH_COMPONENT

/-- mapGLType from TextureGLES.cpp: the element type of the pixel data. -/
def mapGLType (tt : TextureType) (byteSource : WKSingleByteSource) : Nat :=
  match tt, byteSource with
  | TexTypeUnsignedByte, _
  | TexTypeSingleChannel, _
  | TexTypeDoubleChannel, _ => GL_UNSIGNED_BYTE
  | TexTypeShort565, _      => GL_UNSIGNED_SHORT_5_6_5
  | TexTypeShort4444, _     => GL_UNSIGNED_SHORT_4_4_4_4
  | TexTypeShort5551, _     => GL_UNSIGNED_SHORT_5_5_5_1
  | TexTypeSingleFloat16, _
  | TexTypeDoubleFloat16, _
  | TexTypeQuadFloat16, _   => GL_HALF_FLOAT
  | TexTypeSingleFloat32, _
  | TexTypeDoubleFloat32, _
  | TexTypeQuadFloat32, _
  | TexTypeDepthFloat32, _  => GL_FLOAT
  | TexTypeSingleInt16, _   => GL_SHORT
  | TexTypeSingleUInt16, _
  | TexTypeDoubleUInt16, _  => GL_UNSIGNED_SHORT
  | TexTypeSingleUInt32, _
  | TexTypeDoubleUInt32, _
  | TexTypeQuadUInt32, _    => GL_UNSIGNED_INT

/-- Result of TextureGLES::ResolvePKM: the payload pointer (modelled as the
byte list past the 16-byte header) together with the out-parameters
pkmType, size, width and height. -/
structure PKMResult where
  payload : List Nat
  pkmType : Nat
  size : Nat
  width : Nat
  height : Nat
deriving DecidableEq

/-- TextureGLES::ResolvePKM: parse the fixed 16-byte PKM container header.
Returns none (the source returns nullptr) when the input is shorter than 16
bytes, when the first four bytes are not the magic bytes of the string with
the characters P, K, M and a space, or when the sub-type byte at offset 7 is
one the switch leaves unresolved (0 is ETC1, not supported; 2 is unused; any
value above 8 falls outside the switch) - in all of those the source glType
stays -1 and the function fails.  Width and height are the big-endian 16-bit
fields at offsets 8-9 and 10-11. -/
def ResolvePKM (texData : List Nat) : Option PKMResult :=
  if texData.length < 16 then none
  else if ¬ (texData.take 4 = [0x50, 0x4B, 0x4D, 0x20]) then none
  else
    let width := texData.getD 8 0 * 256 + texData.getD 9 0
    let height := texData.getD 10 0 * 256 + texData.getD 11 0
    let payload := texData.drop 16
    match texData.getD 7 0 with
    | 1 => some ⟨payload, GL_COMPRESSED_RGB8_ETC2, width * height / 2, width, height⟩
    | 3 => some ⟨payload, GL_COMPRESSED_RGBA8_ETC2_EAC, width * height, width, height⟩
    | 4 => some ⟨payload, GL_COMPRESSED_RGB8_PUNCHTHROUGH_ALPHA1_ETC2, width * height / 2, width, height⟩
    | 5 => some ⟨payload, GL_COMPRESSED_R11_EAC, width * height / 2, width, height⟩
    | 6 => some ⟨payload, GL_COMPRESSED_RG11_EAC, width * height, width, height⟩
    | 7 => some ⟨payload, GL_COMPRESSED_SIGNED_R11_EAC, width * height / 2, width, height⟩
    | 8 => some ⟨payload, GL_COMPRESSED_SIGNED_RG11_EAC, width * height, width, height⟩
    | _ => none

/-! The texture resource and its renderer lifecycle.  The calls the source
makes into the native GL layer and into the logging layer are recorded as an
ordered list of events, so that "reports an error", "performs no upload" and
"releases the native handle" are directly observable. -/

/-- Log messages emitted by TextureGLES.cpp, one constructor per call site. -/
inductive LogMsg
  | processDataFailed
  | pvrtcNotSupported
  | failedResolvePKM
  | unknownTextureType
  | sizeMismatch
  | uploadDetails
deriving DecidableEq

/-- One call into the native GL layer, the pooled allocator, or the logger. -/
inductive GLCall
  | getTexID (id : Nat)
  | genTextures (id : Nat)
  | bindTexture (id : Nat)
  | texParameteri (pname : Nat) (v : Nat)
  | compressedTexImage2D (fmt : Nat) (w : Nat) (h : Nat) (size : Nat) (data : List Nat)
  | texImage2D (internalFormat : Nat) (w : Nat) (h : Nat) (fmt : Nat) (ty : Nat)
      (data : Option (List Nat))
  | generateMipmap
  | removeTexID (id : Nat)
  | logError (m : LogMsg)
  | logWarn (m : LogMsg)
  | logInfo (m : LogMsg)
deriving DecidableEq

/-- True for the two calls that upload pixel data to the native texture. -/
def isUploadCall : GLCall → Bool
  | GLCall.compressedTexImage2D _ _ _ _ _ => true
  | GLCall.texImage2D _ _ _ _ _ _ => true
  | _ => false

/-- Whether a call list performs any pixel upload. -/
def hasUpload (calls : List GLCall) : Bool := calls.any isUploadCall

/-- True for a warning log entry. -/
def isWarnCall : GLCall → Bool
  | GLCall.logWarn _ => true
  | _ => false

/-- Whether a call list logs any warning. -/
def hasWarn (calls : List GLCall) : Bool := calls.any isWarnCall

/-- True for a release of a pooled texture id. -/
def isRemoveTexID : GLCall → Bool
  | GLCall.removeTexID _ => true
  | _ => false

/-- The GLES render setup info, reduced to what TextureGLES.cpp reads from
it: whether a pooled memory manager is attached. -/
structure RenderSetupInfoGLES where
  hasMemManager : Bool
deriving DecidableEq

/-- The texture resource state: the fields of the Texture / TextureBaseGLES
hierarchy that TextureGLES.cpp reads or writes.  glId is 0 until created. -/
structure TextureGLES where
  texData : Option (List Nat)
  isEmptyTexture : Bool
  isPVRTC : Bool
  isPKM : Bool
  format : TextureType
  byteSource : WKSingleByteSource
  width : Nat
  height : Nat
  usesMipmaps : Bool
  interpType : TexInterpType
  wrapU : Bool
  wrapV : Bool
  glId : Nat
deriving DecidableEq

/-- Modelled from the spec: Texture::processData (declared on the portable
base class, whose translation unit is not part of this source set)
"validates/converts source pixel data".  For the pixel formats exercised by
the claims no byte conversion is required, so it is the identity on the
pixel buffer (and propagates absence of a buffer). -/
def TextureGLES.processData (tex : TextureGLES) : Option (List Nat) :=
  tex.texData

/-- The parameter-setting call sequence at the top of createInRenderer:
allocation (pooled getTexID when a memory manager is present, otherwise
glGenTextures), bind, min/mag filter and wrap-S/wrap-T configuration. -/
def setupCalls (setupInfo : Option RenderSetupInfoGLES) (tex : TextureGLES)
    (glId : Nat) : List GLCall :=
  let allocCall :=
    match setupInfo with
    | some si => if si.hasMemManager then GLCall.getTexID glId else GLCall.genTextures glId
    | none => GLCall.genTextures glId
  let interTypeGL :=
    if tex.interpType = TexInterpType.TexInterpNearest then GL_NEAREST else GL_LINEAR
  [allocCall, GLCall.bindTexture glId,
   GLCall.texParameteri GL_TEXTURE_MIN_FILTER
     (if tex.usesMipmaps then GL_NEAREST_MIPMAP_LINEAR else interTypeGL),
   GLCall.texParameteri GL_TEXTURE_MAG_FILTER interTypeGL,
   GLCall.texParameteri GL_TEXTURE_WRAP_S (if tex.wrapU then GL_REPEAT else GL_CLAMP_TO_EDGE),
   GLCall.texParameteri GL_TEXTURE_WRAP_T (if tex.wrapV then GL_REPEAT else GL_CLAMP_TO_EDGE)]

/-- The common tail of every branch of createInRenderer that falls through
to the end of the function: generate mip-maps if requested, release the
CPU-side pixel buffer (texData.reset()) and return true. -/
def createFinish (setup : List GLCall) (upload : List GLCall) (t : TextureGLES) :
    Bool × TextureGLES × List GLCall :=
  (true, { t with texData := none },
   setup ++ upload ++ (if t.usesMipmaps then [GLCall.generateMipmap] else []))

/-- TextureGLES::createInRenderer.  allocId stands for the id handed out by
the external allocator (pooled getTexID or glGenTextures); the result is the
returned Bool, the updated texture state, and the ordered list of native /
logging calls made.  The branch structure follows the source:
no pixel data and not marked empty fails first; an already non-zero glId is
an immediate success; then the id is allocated and parameters set; a failed
processData fails; the PVRTC branch only logs an error, the PKM branch
uploads the compressed payload or logs a resolution failure, and the
uncompressed branch resolves the format triple, checks the buffer size
(shortfall returns false after the warning; surplus proceeds), uploads, and
every branch that reaches the end resets texData and returns true. -/
def TextureGLES.createInRenderer (setupInfo : Option RenderSetupInfoGLES)
    (allocId : Nat) (tex : TextureGLES) : Bool × TextureGLES × List GLCall :=
  if tex.texData = none ∧ tex.isEmptyTexture = false then
    (false, tex, [])
  else if tex.glId ≠ 0 then
    (true, tex, [])
  else
    let t : TextureGLES := { tex with glId := allocId }
    let setup := setupCalls setupInfo tex allocId
    let convertedData := tex.processData
    if tex.texData ≠ none ∧ convertedData = none then
      (false, t, setup ++ [GLCall.logError LogMsg.processDataFailed])
    else if tex.isPVRTC then
      createFinish setup [GLCall.logError LogMsg.pvrtcNotSupported] t
    else if tex.isPKM then
      match ResolvePKM (tex.texData.getD []) with
      | some pkm =>
          createFinish setup
            [GLCall.compressedTexImage2D pkm.pkmType tex.width tex.height pkm.size pkm.payload] t
      | none =>
          createFinish setup [GLCall.logError LogMsg.failedResolvePKM] t
    else
      let internalFormat := mapInternalFormat tex.format tex.byteSource
      let glFormat := mapGLFormat tex.format tex.byteSource
      let glType := mapGLType tex.format tex.byteSource
      let bytesPerRow := getBytesPerRow tex.format tex.width
      if internalFormat ≠ GL_NONE ∧ glFormat ≠ GL_NONE ∧ glType ≠ GL_NONE then
        match convertedData with
        | some d =>
            if d.length ≠ bytesPerRow * tex.height then
              if d.length < bytesPerRow * tex.height then
                (false, t, setup ++ [GLCall.logWarn LogMsg.sizeMismatch])
              else
                createFinish setup
                  [GLCall.logWarn LogMsg.sizeMismatch, GLCall.logInfo LogMsg.uploadDetails,
                   GLCall.texImage2D internalFormat tex.width tex.height glFormat glType (some d)] t
            else
              createFinish setup
                [GLCall.logInfo LogMsg.uploadDetails,
                 GLCall.texImage2D internalFormat tex.width tex.height glFormat glType (some d)] t
        | none =>
            createFinish setup
              [GLCall.logInfo LogMsg.uploadDetails,
               GLCall.texImage2D internalFormat tex.width tex.height glFormat glType none] t
      else
        createFinish setup [GLCall.logError LogMsg.unknownTextureType] t

/-- TextureGLES::destroyInRenderer: when glId is non-zero and a setup info
was supplied, release the id through the pooled allocator.  The source never
clears the glId member, so the state is returned unchanged in all cases. -/
def TextureGLES.destroyInRenderer (setupInfo : Option RenderSetupInfoGLES)
    (tex : TextureGLES) : TextureGLES × List GLCall :=
  if tex.glId ≠ 0 ∧ setupInfo.isSome then
    (tex, [GLCall.removeTexID tex.glId])
  else
    (tex, [])

/-! The scene-representation table of the Geometry Manager.  The header
GeometryManager.h declares removeGeometry and GeomSceneRep::clearContents;
their bodies live in a translation unit outside this source set, so they are
modelled from the specification (sections 4.3 and 4.4). -/

/-- A deferred change record handed to the external renderer. -/
inductive ChangeRequest
  | remDrawable (id : Nat)
  | remSelectable (id : Nat)
  | onOffDrawable (id : Nat) (enable : Bool)
  | fadeDrawable (id : Nat) (duration : Nat) (start : Nat)
  | scheduledRemove (id : Nat) (due : Nat)
deriving DecidableEq

/-- The scene representation owned by one logical geometry handle: its
drawable ids, its selection-manager ids, and the fade-out duration
(0 meaning no fade). -/
structure GeomSceneRep where
  geomId : Nat
  drawIDs : List Nat
  selectIDs : List Nat
  fade : Nat
deriving DecidableEq

/-- The Geometry Manager state: its table of scene representations. -/
structure GeometryManager where
  sceneReps : List GeomSceneRep
deriving DecidableEq

/-- Modelled from the spec: GeomSceneRep::clearContents (section 4.3; its
body is not part of this source set).  With zero fade it emits an immediate
remove-batch change for every owned drawable and a remove-selectable for
every owned selection handle, and the table entry is erased now (the Bool
component); with non-zero fade it emits a fade-to-transparent change and a
scheduled erasure for now + fade, and the entry stays in the table during
the fade window. -/
def GeomSceneRep.clearContents (rep : GeomSceneRep) (now : Nat) :
    List ChangeRequest × Bool :=
  if rep.fade = 0 then
    (rep.drawIDs.map ChangeRequest.remDrawable ++
       rep.selectIDs.map ChangeRequest.remSelectable, true)
  else
    (rep.drawIDs.map (fun i => ChangeRequest.fadeDrawable i rep.fade now) ++
       rep.drawIDs.map (fun i => ChangeRequest.scheduledRemove i (now + rep.fade)), false)

/-- Modelled from the spec: GeometryManager::removeGeometry (section 4.4;
its body is not part of this source set).  Bulk-applies clearContents across
the handle set; a handle with no table entry is silently skipped - no error
is reported and no change records are emitted for it. -/
def GeometryManager.removeGeometry (mgr : GeometryManager) (ids : List Nat)
    (now : Nat) : GeometryManager × List ChangeRequest :=
  ids.foldl
    (fun acc id =>
      match acc.1.sceneReps.find? (fun r => r.geomId == id) with
      | none => acc
      | some rep =>
          let cleared := rep.clearContents now
          (⟨if cleared.2 then acc.1.sceneReps.filter (fun r => !(r.geomId == id))
            else acc.1.sceneReps⟩,
           acc.2 ++ cleared.1))
    (mgr, [])

/-! Concrete instances used to exercise the definitions. -/

/-- A 16-byte PKM header with the given sub-type and big-endian dimensions. -/
def mkPKMHeader (subType width height : Nat) : List Nat :=
  [0x50, 0x4B, 0x4D, 0x20, 0, 0, 0, subType,
   width / 256, width % 256, height / 256, height % 256, 0, 0, 0, 0]

/-- A setup info carrying a pooled memory manager. -/
def poolSetup : Option RenderSetupInfoGLES := some ⟨true⟩

/-- An uncompressed 4x4 TexTypeUnsignedByte texture over the given pixel
buffer, pending creation. -/
def texUB44 (d : List Nat) : TextureGLES :=
  { texData := some d, isEmptyTexture := false, isPVRTC := false, isPKM := false,
    format := TextureType.TexTypeUnsignedByte, byteSource := WKSingleByteSource.WKSingleRGB,
    width := 4, height := 4, usesMipmaps := false,
    interpType := TexInterpType.TexInterpLinear, wrapU := false, wrapV := false, glId := 0 }

/-- A created (glId = 1) texture whose CPU pixel buffer has been released
and which is not marked empty. -/
def texCreatedNoData : TextureGLES :=
  { texUB44 [] with texData := none, glId := 1 }

/-- A pending empty-marked texture with no pixel data. -/
def texEmpty44 : TextureGLES :=
  { texUB44 [] with texData := none, isEmptyTexture := true }

/-- A pending texture marked PVRTC-compressed over a 16-byte buffer. -/
def texPVRTC16 : TextureGLES :=
  { texUB44 (List.replicate 16 0) with isPVRTC := true }

/-- A geometry manager owning one representation under handle 1 with two
drawables, one selection handle, and no fade. -/
def mgrOne : GeometryManager :=
  ⟨[⟨1, [10, 11], [20], 0⟩]⟩

/-! Helper lemmas shared by the claim theorems. -/

theorem hasUpload_append (a b : List GLCall) :
    hasUpload (a ++ b) = (hasUpload a || hasUpload b) := by
  simp [hasUpload, List.any_append]

theorem hasUpload_setupCalls (si : Option RenderSetupInfoGLES) (tex : TextureGLES)
    (g : Nat) : hasUpload (setupCalls si tex g) = false := by
  unfold setupCalls hasUpload
  cases si with
  | none => simp [isUploadCall]
  | some s =>
      by_cases h : s.hasMemManager <;> simp [h, isUploadCall]

theorem hasUpload_mipTail (b : Bool) :
    hasUpload (if b then [GLCall.generateMipmap] else []) = false := by
  cases b <;> rfl

theorem hasUpload_createFinish (setup upload : List GLCall) (t : TextureGLES)
    (hs : hasUpload setup = false) (hu : hasUpload upload = false) :
    hasUpload (createFinish setup upload t).2.2 = false := by
  simp [createFinish, hasUpload_append, hs, hu, hasUpload_mipTail]

theorem noRemove_setupCalls (si : Option RenderSetupInfoGLES) (tex : TextureGLES)
    (g : Nat) : (setupCalls si tex g).any isRemoveTexID = false := by
  unfold setupCalls
  cases si with
  | none => simp [isRemoveTexID]
  | some s =>
      by_cases h : s.hasMemManager <;> simp [h, isRemoveTexID]

theorem noRemove_createFinish (setup upload : List GLCall) (t : TextureGLES)
    (hs : setup.any isRemoveTexID = false) (hu : upload.any isRemoveTexID = false) :
    (createFinish setup upload t).2.2.any isRemoveTexID = false := by
  cases h : t.usesMipmaps <;>
    simp [createFinish, List.any_append, hs, hu, h, isRemoveTexID]

theorem createInRenderer_already_created (si : Option RenderSetupInfoGLES) (a : Nat)
    (tex : TextureGLES) (hg : tex.glId ≠ 0)
    (hd : ¬ (tex.texData = none ∧ tex.isEmptyTexture = false)) :
    TextureGLES.createInRenderer si a tex = (true, tex, []) := by
  unfold TextureGLES.createInRenderer
  rw [if_neg hd, if_pos hg]

theorem createInRenderer_no_data (si : Option RenderSetupInfoGLES) (a : Nat)
    (tex : TextureGLES) (h1 : tex.texData = none) (h2 : tex.isEmptyTexture = false) :
    TextureGLES.createInRenderer si a tex = (false, tex, []) := by
  unfold TextureGLES.createInRenderer
  rw [if_pos ⟨h1, h2⟩]

theorem createInRenderer_shortfall (si : Option RenderSetupInfoGLES) (a : Nat)
    (tex : TextureGLES) (d : List Nat)
    (hd : tex.texData = some d) (hg : tex.glId = 0)
    (hpv : tex.isPVRTC = false) (hpk : tex.isPKM = false)
    (hIF : mapInternalFormat tex.format tex.byteSource ≠ GL_NONE)
    (hGF : mapGLFormat tex.format tex.byteSource ≠ GL_NONE)
    (hGT : mapGLType tex.format tex.byteSource ≠ GL_NONE)
    (hlt : d.length < getBytesPerRow tex.format tex.width * tex.height) :
    TextureGLES.createInRenderer si a tex =
      (false, { tex with glId := a },
       setupCalls si tex a ++ [GLCall.logWarn LogMsg.sizeMismatch]) := by
  have hne : d.length ≠ getBytesPerRow tex.format tex.width * tex.height := Nat.ne_of_lt hlt
  simp only [TextureGLES.createInRenderer, TextureGLES.processData, hd, hg, hpv, hpk]
  simp [hIF, hGF, hGT, hne, hlt]

/-- Claim C6: the PKM header parser fails on inputs shorter than the fixed
16-byte header and on inputs whose first four bytes are not the magic
bytes of "PKM "; on any successful parse, the reported width is the
big-endian 16-bit field at byte offsets 8-9 and the height the big-endian
16-bit field at offsets 10-11. -/
theorem ResolvePKM_header_validation (bytes : List Nat) :
    (bytes.length < 16 → ResolvePKM bytes = none) ∧
    (¬ bytes.take 4 = [0x50, 0x4B, 0x4D, 0x20] → ResolvePKM bytes = none) ∧
    (∀ r : PKMResult, ResolvePKM bytes = some r →
      r.width = bytes.getD 8 0 * 256 + bytes.getD 9 0 ∧
      r.height = bytes.getD 10 0 * 256 + bytes.getD 11 0) := by
  refine ⟨?_, ?_, ?_⟩
  · intro h
    simp [ResolvePKM, h]
  · intro h
    by_cases h16 : bytes.length < 16 <;> simp [ResolvePKM, h16, h]
  · intro r hr
    unfold ResolvePKM at hr
    by_cases h16 : bytes.length < 16
    · simp [h16] at hr
    · by_cases hm : bytes.take 4 = [0x50, 0x4B, 0x4D, 0x20]
      · simp only [h16, hm, if_false, if_neg, not_true_eq_false, ite_false, not_false_eq_true,
          ite_true, if_pos] at hr
        split at hr <;> first
          | (cases hr; exact ⟨rfl, rfl⟩)
          | simp at hr
      · simp [h16, hm] at hr

/-- Claim C6 witness: a concrete 16-byte header with sub-type 3 and
dimensions 2 by 5 parses, and the parsed width and height are the
big-endian fields, evaluating to 2 and 5. -/
theorem ResolvePKM_header_validation_witness :
    ∃ r : PKMResult, ResolvePKM (mkPKMHeader 3 2 5) = some r ∧ r.width = 2 ∧ r.height = 5 := by
  refine ⟨⟨[], GL_COMPRESSED_RGBA8_ETC2_EAC, 10, 2, 5⟩, by decide, ?_⟩
  have h := (ResolvePKM_header_validation (mkPKMHeader 3 2 5)).2.2
    ⟨[], GL_COMPRESSED_RGBA8_ETC2_EAC, 10, 2, 5⟩ (by decide)
  exact ⟨h.1.trans (by decide), h.2.trans (by decide)⟩

/-- Claim C7: for inputs with valid length and magic, the sub-type byte at
offset 7 is mapped through the fixed table: every successful parse has
payload size width height or width height / 2 and a non-sentinel
compression kind; among the defined sub-types 0 to 8 exactly the two values
0 and 2 make the parse fail; and sub-type 1 resolves to the ETC2 RGB8 kind
with size width height / 2. -/
theorem ResolvePKM_subtype_table (bytes : List Nat)
    (h16 : ¬ bytes.length < 16)
    (hm : bytes.take 4 = [0x50, 0x4B, 0x4D, 0x20]) :
    (∀ r : PKMResult, ResolvePKM bytes = some r →
       (r.size = r.width * r.height ∨ r.size = r.width * r.height / 2) ∧
       r.pkmType ≠ GL_NONE) ∧
    (bytes.getD 7 0 ≤ 8 →
       (ResolvePKM bytes = none ↔ bytes.getD 7 0 = 0 ∨ bytes.getD 7 0 = 2)) ∧
    (bytes.getD 7 0 = 1 →
       ResolvePKM bytes = some ⟨bytes.drop 16, GL_COMPRESSED_RGB8_ETC2,
         (bytes.getD 8 0 * 256 + bytes.getD 9 0) * (bytes.getD 10 0 * 256 + bytes.getD 11 0) / 2,
         bytes.getD 8 0 * 256 + bytes.getD 9 0, bytes.getD 10 0 * 256 + bytes.getD 11 0⟩) := by
  have hres : ResolvePKM bytes =
      (match bytes.getD 7 0 with
       | 1 => some ⟨bytes.drop 16, GL_COMPRESSED_RGB8_ETC2,
           (bytes.getD 8 0 * 256 + bytes.getD 9 0) * (bytes.getD 10 0 * 256 + bytes.getD 11 0) / 2,
           bytes.getD 8 0 * 256 + bytes.getD 9 0, bytes.getD 10 0 * 256 + bytes.getD 11 0⟩
       | 3 => some ⟨bytes.drop 16, GL_COMPRESSED_RGBA8_ETC2_EAC,
           (bytes.getD 8 0 * 256 + bytes.getD 9 0) * (bytes.getD 10 0 * 256 + bytes.getD 11 0),
           bytes.getD 8 0 * 256 + bytes.getD 9 0, bytes.getD 10 0 * 256 + bytes.getD 11 0⟩
       | 4 => some ⟨bytes.drop 16, GL_COMPRESSED_RGB8_PUNCHTHROUGH_ALPHA1_ETC2,
           (bytes.getD 8 0 * 256 + bytes.getD 9 0) * (bytes.getD 10 0 * 256 + bytes.getD 11 0) / 2,
           bytes.getD 8 0 * 256 + bytes.getD 9 0, bytes.getD 10 0 * 256 + bytes.getD 11 0⟩
       | 5 => some ⟨bytes.drop 16, GL_COMPRESSED_R11_EAC,
           (bytes.getD 8 0 * 256 + bytes.getD 9 0) * (bytes.getD 10 0 * 256 + bytes.getD 11 0) / 2,
           bytes.getD 8 0 * 256 + bytes.getD 9 0, bytes.getD 10 0 * 256 + bytes.getD 11 0⟩
       | 6 => some ⟨bytes.drop 16, GL_COMPRESSED_RG11_EAC,
           (bytes.getD 8 0 * 256 + bytes.getD 9 0) * (bytes.getD 10 0 * 256 + bytes.getD 11 0),
           bytes.getD 8 0 * 256 + bytes.getD 9 0, bytes.getD 10 0 * 256 + bytes.getD 11 0⟩
       | 7 => some ⟨bytes.drop 16, GL_COMPRESSED_SIGNED_R11_EAC,
           (bytes.getD 8 0 * 256 + bytes.getD 9 0) * (bytes.getD 10 0 * 256 + bytes.getD 11 0) / 2,
           bytes.getD 8 0 * 256 + bytes.getD 9 0, bytes.getD 10 0 * 256 + bytes.getD 11 0⟩
       | 8 => some ⟨bytes.drop 16, GL_COMPRESSED_SIGNED_RG11_EAC,
           (bytes.getD 8 0 * 256 + bytes.getD 9 0) * (bytes.getD 10 0 * 256 + bytes.getD 11 0),
           bytes.getD 8 0 * 256 + bytes.getD 9 0, bytes.getD 10 0 * 256 + bytes.getD 11 0⟩
       | _ => none) := by
    unfold ResolvePKM
    simp [h16, hm]
  refine ⟨?_, ?_, ?_⟩
  · intro r hr
    have hk : GL_COMPRESSED_RGB8_ETC2 ≠ GL_NONE ∧ GL_COMPRESSED_RGBA8_ETC2_EAC ≠ GL_NONE ∧
        GL_COMPRESSED_RGB8_PUNCHTHROUGH_ALPHA1_ETC2 ≠ GL_NONE ∧
        GL_COMPRESSED_R11_EAC ≠ GL_NONE ∧ GL_COMPRESSED_RG11_EAC ≠ GL_NONE ∧
        GL_COMPRESSED_SIGNED_R11_EAC ≠ GL_NONE ∧ GL_COMPRESSED_SIGNED_RG11_EAC ≠ GL_NONE := by
      decide
    rw [hres] at hr
    split at hr
    · injection hr with h; subst h; exact ⟨Or.inr rfl, hk.1⟩
    · injection hr with h; subst h; exact ⟨Or.inl rfl, hk.2.1⟩
    · injection hr with h; subst h; exact ⟨Or.inr rfl, hk.2.2.1⟩
    · injection hr with h; subst h; exact ⟨Or.inr rfl, hk.2.2.2.1⟩
    · injection hr with h; subst h; exact ⟨Or.inl rfl, hk.2.2.2.2.1⟩
    · injection hr with h; subst h; exact ⟨Or.inr rfl, hk.2.2.2.2.2.1⟩
    · injection hr with h; subst h; exact ⟨Or.inl rfl, hk.2.2.2.2.2.2⟩
    · exact absurd hr (by simp)
  · intro h8
    obtain ⟨st, hst⟩ : ∃ n, bytes.getD 7 0 = n := ⟨_, rfl⟩
    rw [hst] at hres h8 ⊢
    interval_cases st <;> simp [hres]
  · intro h1
    rw [hres, h1]

/-- Claim C7 witness: a header with magic, sub-type byte 1 and dimensions
64 by 64 resolves to size 64 * 64 / 2 = 2048 with the ETC2 RGB8 kind, and
the same header with sub-type byte 2 fails to parse. -/
theorem ResolvePKM_subtype_table_witness :
    ResolvePKM (mkPKMHeader 1 64 64) =
      some ⟨[], GL_COMPRESSED_RGB8_ETC2, 2048, 64, 64⟩ ∧
    ResolvePKM (mkPKMHeader 2 64 64) = none := by
  constructor
  · have h := (ResolvePKM_subtype_table (mkPKMHeader 1 64 64)
      (by decide) (by decide)).2.2 (by decide)
    exact h.trans (by decide)
  · exact ((ResolvePKM_subtype_table (mkPKMHeader 2 64 64)
      (by decide) (by decide)).2.1 (by decide)).mpr (Or.inr (by decide))

/-- Claim C1 counterexample: on a created texture (glId = 1) with a setup
info present, the second destroyInRenderer call is not a no-op - it
releases the native handle through removeTexID a second time. -/
theorem destroyInRenderer_second_release_counterexample :
    (TextureGLES.destroyInRenderer poolSetup
      ((TextureGLES.destroyInRenderer poolSetup { texUB44 [] with glId := 1 }).1)).2
        = [GLCall.removeTexID 1] ∧
    (TextureGLES.destroyInRenderer poolSetup
      ((TextureGLES.destroyInRenderer poolSetup { texUB44 [] with glId := 1 }).1)).2 ≠ [] := by
  decide

/-- Claim C1 (amended): destroyInRenderer never clears the native handle
field, so on a created texture with a setup info present every call -
including the second of two calls in a row - releases the handle through
removeTexID again, and the texture state is unchanged by both calls; there
is no recorded destroyed state. -/
theorem destroyInRenderer_releases_every_call (si : RenderSetupInfoGLES)
    (tex : TextureGLES) (hg : tex.glId ≠ 0) :
    TextureGLES.destroyInRenderer (some si) tex = (tex, [GLCall.removeTexID tex.glId]) ∧
    TextureGLES.destroyInRenderer (some si)
        ((TextureGLES.destroyInRenderer (some si) tex).1)
      = (tex, [GLCall.removeTexID tex.glId]) := by
  have h1 : TextureGLES.destroyInRenderer (some si) tex
      = (tex, [GLCall.removeTexID tex.glId]) := by
    unfold TextureGLES.destroyInRenderer
    rw [if_pos ⟨hg, rfl⟩]
  refine ⟨h1, ?_⟩
  rw [h1]
  exact h1

/-- Claim C1 witness: the amended statement at a concrete created texture
with glId 1: both calls release handle 1 and leave the state unchanged. -/
theorem destroyInRenderer_releases_every_call_witness :
    TextureGLES.destroyInRenderer poolSetup { texUB44 [] with glId := 1 }
      = ({ texUB44 [] with glId := 1 }, [GLCall.removeTexID 1]) ∧
    TextureGLES.destroyInRenderer poolSetup
        ((TextureGLES.destroyInRenderer poolSetup { texUB44 [] with glId := 1 }).1)
      = ({ texUB44 [] with glId := 1 }, [GLCall.removeTexID 1]) :=
  destroyInRenderer_releases_every_call ⟨true⟩ { texUB44 [] with glId := 1 } (by decide)

/-- Claim C2 counterexample: a texture in the created state (glId = 1)
whose CPU-side pixel buffer has been released and which is not marked
empty makes createInRenderer return false, not success. -/
theorem createInRenderer_created_fails_counterexample :
    (TextureGLES.createInRenderer poolSetup 7 texCreatedNoData).1 = false := by
  decide

/-- Claim C2 (amended): a further createInRenderer on an already-created
resource (glId non-zero) is a no-op success only when the CPU-side pixel
buffer is still present or the resource is marked empty; because the
no-pixel-data check precedes the already-created check, any resource with
no pixel data and not marked empty - created or pending - fails. -/
theorem createInRenderer_created_noop :
    (∀ (si : Option RenderSetupInfoGLES) (a : Nat) (tex : TextureGLES),
       tex.glId ≠ 0 → (tex.texData ≠ none ∨ tex.isEmptyTexture = true) →
       TextureGLES.createInRenderer si a tex = (true, tex, [])) ∧
    (∀ (si : Option RenderSetupInfoGLES) (a : Nat) (tex : TextureGLES),
       tex.texData = none → tex.isEmptyTexture = false →
       (TextureGLES.createInRenderer si a tex).1 = false) := by
  constructor
  · intro si a tex hg hd
    refine createInRenderer_already_created si a tex hg ?_
    rcases hd with hd | hd
    · exact fun hc => hd hc.1
    · intro hc
      rw [hd] at hc
      cases hc.2
  · intro si a tex h1 h2
    rw [createInRenderer_no_data si a tex h1 h2]

/-- Claim C2 witness: a created texture with its pixel buffer still present
is a no-op success, and a created texture with no pixel data and not
marked empty fails. -/
theorem createInRenderer_created_noop_witness :
    TextureGLES.createInRenderer poolSetup 7 { texUB44 [42] with glId := 1 }
      = (true, { texUB44 [42] with glId := 1 }, []) ∧
    (TextureGLES.createInRenderer poolSetup 7 texCreatedNoData).1 = false :=
  ⟨createInRenderer_created_noop.1 poolSetup 7 { texUB44 [42] with glId := 1 }
     (by decide) (Or.inl (by decide)),
   createInRenderer_created_noop.2 poolSetup 7 texCreatedNoData (by decide) (by decide)⟩

/-- Claim C3: for an uncompressed pending texture with a supported format
triple, createInRenderer validates the pixel buffer length against
getBytesPerRow(format, width) * height before uploading: a strictly
shorter buffer makes the call return false with no upload, while a
strictly longer buffer logs a warning and the upload proceeds to
success. -/
theorem createInRenderer_size_validation (si : Option RenderSetupInfoGLES)
    (a : Nat) (tex : TextureGLES) (d : List Nat)
    (hd : tex.texData = some d) (hg : tex.glId = 0)
    (hpv : tex.isPVRTC = false) (hpk : tex.isPKM = false)
    (hIF : mapInternalFormat tex.format tex.byteSource ≠ GL_NONE)
    (hGF : mapGLFormat tex.format tex.byteSource ≠ GL_NONE)
    (hGT : mapGLType tex.format tex.byteSource ≠ GL_NONE) :
    (d.length < getBytesPerRow tex.format tex.width * tex.height →
       (TextureGLES.createInRenderer si a tex).1 = false ∧
       hasUpload (TextureGLES.createInRenderer si a tex).2.2 = false) ∧
    (getBytesPerRow tex.format tex.width * tex.height < d.length →
       (TextureGLES.createInRenderer si a tex).1 = true ∧
       hasWarn (TextureGLES.createInRenderer si a tex).2.2 = true ∧
       hasUpload (TextureGLES.createInRenderer si a tex).2.2 = true) := by
  constructor
  · intro hlt
    rw [createInRenderer_shortfall si a tex d hd hg hpv hpk hIF hGF hGT hlt]
    refine ⟨rfl, ?_⟩
    rw [show ((false, { tex with glId := a },
        setupCalls si tex a ++ [GLCall.logWarn LogMsg.sizeMismatch]) :
        Bool × TextureGLES × List GLCall).2.2
      = setupCalls si tex a ++ [GLCall.logWarn LogMsg.sizeMismatch] from rfl]
    rw [hasUpload_append, hasUpload_setupCalls]
    rfl
  · intro hgt
    have hne : d.length ≠ getBytesPerRow tex.format tex.width * tex.height :=
      Nat.ne_of_gt hgt
    have hnlt : ¬ d.length < getBytesPerRow tex.format tex.width * tex.height := by
      omega
    have hres : TextureGLES.createInRenderer si a tex =
        createFinish (setupCalls si tex a)
          [GLCall.logWarn LogMsg.sizeMismatch, GLCall.logInfo LogMsg.uploadDetails,
           GLCall.texImage2D (mapInternalFormat tex.format tex.byteSource)
             tex.width tex.height (mapGLFormat tex.format tex.byteSource)
             (mapGLType tex.format tex.byteSource) (some d)]
          { tex with glId := a } := by
      simp only [TextureGLES.createInRenderer, TextureGLES.processData, hd, hg, hpv, hpk]
      simp [hIF, hGF, hGT, hne, hnlt]
    rw [hres]
    refine ⟨rfl, ?_, ?_⟩ <;>
      cases h : tex.usesMipmaps <;>
        simp [createFinish, hasWarn, hasUpload, List.any_append, h,
          isWarnCall, isUploadCall]

/-- Claim C3 witness: for the 4 by 4 TexTypeUnsignedByte texture, expected
size is getBytesPerRow 4 * 4 = 16; a 15-byte buffer fails with no upload
and a 17-byte buffer succeeds with a warning and an upload. -/
theorem createInRenderer_size_validation_witness :
    ((TextureGLES.createInRenderer poolSetup 7 (texUB44 (List.replicate 15 0))).1 = false ∧
     hasUpload (TextureGLES.createInRenderer poolSetup 7
       (texUB44 (List.replicate 15 0))).2.2 = false) ∧
    ((TextureGLES.createInRenderer poolSetup 7 (texUB44 (List.replicate 17 0))).1 = true ∧
     hasWarn (TextureGLES.createInRenderer poolSetup 7
       (texUB44 (List.replicate 17 0))).2.2 = true ∧
     hasUpload (TextureGLES.createInRenderer poolSetup 7
       (texUB44 (List.replicate 17 0))).2.2 = true) :=
  ⟨(createInRenderer_size_validation poolSetup 7 (texUB44 (List.replicate 15 0))
      (List.replicate 15 0) rfl rfl rfl rfl (by decide) (by decide) (by decide)).1
      (by decide),
   (createInRenderer_size_validation poolSetup 7 (texUB44 (List.replicate 17 0))
      (List.replicate 17 0) rfl rfl rfl rfl (by decide) (by decide) (by decide)).2
      (by decide)⟩

/-- Claim C10: on a short-pixel-buffer failure the create is not atomic -
the native handle has already been allocated and stays set, the CPU-side
pixel buffer is retained, and a subsequent createInRenderer on the same
resource returns success immediately with no calls (hence no upload). -/
theorem createInRenderer_shortfall_not_atomic (si : Option RenderSetupInfoGLES)
    (a b : Nat) (tex : TextureGLES) (d : List Nat)
    (hd : tex.texData = some d) (hg : tex.glId = 0)
    (hpv : tex.isPVRTC = false) (hpk : tex.isPKM = false)
    (hIF : mapInternalFormat tex.format tex.byteSource ≠ GL_NONE)
    (hGF : mapGLFormat tex.format tex.byteSource ≠ GL_NONE)
    (hGT : mapGLType tex.format tex.byteSource ≠ GL_NONE)
    (hlt : d.length < getBytesPerRow tex.format tex.width * tex.height)
    (ha : a ≠ 0) :
    (TextureGLES.createInRenderer si a tex).1 = false ∧
    (TextureGLES.createInRenderer si a tex).2.1.glId = a ∧
    (TextureGLES.createInRenderer si a tex).2.1.texData = some d ∧
    TextureGLES.createInRenderer si b (TextureGLES.createInRenderer si a tex).2.1
      = (true, (TextureGLES.createInRenderer si a tex).2.1, []) := by
  have hres := createInRenderer_shortfall si a tex d hd hg hpv hpk hIF hGF hGT hlt
  rw [hres]
  refine ⟨rfl, rfl, hd, ?_⟩
  refine createInRenderer_already_created si b { tex with glId := a } ha ?_
  intro hc
  rw [hd] at hc
  cases hc.1

/-- Claim C10 witness: the 4 by 4 TexTypeUnsignedByte texture with a
15-byte buffer fails, keeps glId = 7 and the buffer, and a second call
succeeds immediately with no calls. -/
theorem createInRenderer_shortfall_not_atomic_witness :
    (TextureGLES.createInRenderer poolSetup 7 (texUB44 (List.replicate 15 0))).1 = false ∧
    (TextureGLES.createInRenderer poolSetup 7
      (texUB44 (List.replicate 15 0))).2.1.glId = 7 ∧
    (TextureGLES.createInRenderer poolSetup 7
      (texUB44 (List.replicate 15 0))).2.1.texData = some (List.replicate 15 0) ∧
    TextureGLES.createInRenderer poolSetup 9
        (TextureGLES.createInRenderer poolSetup 7 (texUB44 (List.replicate 15 0))).2.1
      = (true, (TextureGLES.createInRenderer poolSetup 7
          (texUB44 (List.replicate 15 0))).2.1, []) :=
  createInRenderer_shortfall_not_atomic poolSetup 7 9 (texUB44 (List.replicate 15 0))
    (List.replicate 15 0) rfl rfl rfl rfl (by decide) (by decide) (by decide)
    (by decide) (by decide)

/-- Claim C4 counterexample: a pending PVRTC-marked texture makes
createInRenderer return true - the error is logged but the call does not
fail, contrary to the claim that it returns an error outcome. -/
theorem createInRenderer_pvrtc_succeeds_counterexample :
    (TextureGLES.createInRenderer poolSetup 7 texPVRTC16).1 = true ∧
    GLCall.logError LogMsg.pvrtcNotSupported
      ∈ (TextureGLES.createInRenderer poolSetup 7 texPVRTC16).2.2 := by
  decide

/-- Claim C4 (amended): for a pending PVRTC-marked texture,
createInRenderer reports the unsupported-format error and performs no
upload, but returns true (success) rather than failing; for a pending
PKM-marked texture whose header fails to parse, the error is reported,
the upload is aborted, the already-allocated native handle is kept (no
removeTexID is emitted and glId stays set), and the call again returns
true rather than failing. -/
theorem createInRenderer_compressed_error_paths :
    (∀ (si : Option RenderSetupInfoGLES) (a : Nat) (tex : TextureGLES) (d : List Nat),
       tex.texData = some d → tex.glId = 0 → tex.isPVRTC = true →
       (TextureGLES.createInRenderer si a tex).1 = true ∧
       GLCall.logError LogMsg.pvrtcNotSupported
         ∈ (TextureGLES.createInRenderer si a tex).2.2 ∧
       hasUpload (TextureGLES.createInRenderer si a tex).2.2 = false ∧
       (TextureGLES.createInRenderer si a tex).2.1.glId = a) ∧
    (∀ (si : Option RenderSetupInfoGLES) (a : Nat) (tex : TextureGLES) (d : List Nat),
       tex.texData = some d → tex.glId = 0 → tex.isPVRTC = false → tex.isPKM = true →
       ResolvePKM d = none →
       (TextureGLES.createInRenderer si a tex).1 = true ∧
       GLCall.logError LogMsg.failedResolvePKM
         ∈ (TextureGLES.createInRenderer si a tex).2.2 ∧
       hasUpload (TextureGLES.createInRenderer si a tex).2.2 = false ∧
       (TextureGLES.createInRenderer si a tex).2.1.glId = a ∧
       (TextureGLES.createInRenderer si a tex).2.2.any isRemoveTexID = false) := by
  constructor
  · intro si a tex d hd hg hpv
    have hres : TextureGLES.createInRenderer si a tex =
        createFinish (setupCalls si tex a)
          [GLCall.logError LogMsg.pvrtcNotSupported] { tex with glId := a } := by
      simp only [TextureGLES.createInRenderer, TextureGLES.processData, hd, hg, hpv]
      simp
    rw [hres]
    refine ⟨rfl, ?_, ?_, rfl⟩
    · cases h : tex.usesMipmaps <;> simp [createFinish, h]
    · exact hasUpload_createFinish _ _ _ (hasUpload_setupCalls si tex a) rfl
  · intro si a tex d hd hg hpv hpk hpkm
    have hres : TextureGLES.createInRenderer si a tex =
        createFinish (setupCalls si tex a)
          [GLCall.logError LogMsg.failedResolvePKM] { tex with glId := a } := by
      simp only [TextureGLES.createInRenderer, TextureGLES.processData, hd, hg, hpv, hpk]
      simp [hpkm]
    rw [hres]
    refine ⟨rfl, ?_, ?_, rfl, ?_⟩
    · cases h : tex.usesMipmaps <;> simp [createFinish, h]
    · exact hasUpload_createFinish _ _ _ (hasUpload_setupCalls si tex a) rfl
    · exact noRemove_createFinish _ _ _ (noRemove_setupCalls si tex a) rfl

/-- Claim C4 witness: the amended statement at the concrete PVRTC texture
and at a concrete PKM texture with an unparseable (3-byte) payload. -/
theorem createInRenderer_compressed_error_paths_witness :
    ((TextureGLES.createInRenderer poolSetup 7 texPVRTC16).1 = true ∧
     GLCall.logError LogMsg.pvrtcNotSupported
       ∈ (TextureGLES.createInRenderer poolSetup 7 texPVRTC16).2.2 ∧
     hasUpload (TextureGLES.createInRenderer poolSetup 7 texPVRTC16).2.2 = false ∧
     (TextureGLES.createInRenderer poolSetup 7 texPVRTC16).2.1.glId = 7) ∧
    ((TextureGLES.createInRenderer poolSetup 7
        { texUB44 [1, 2, 3] with isPKM := true }).1 = true ∧
     GLCall.logError LogMsg.failedResolvePKM
       ∈ (TextureGLES.createInRenderer poolSetup 7
           { texUB44 [1, 2, 3] with isPKM := true }).2.2 ∧
     hasUpload (TextureGLES.createInRenderer poolSetup 7
       { texUB44 [1, 2, 3] with isPKM := true }).2.2 = false ∧
     (TextureGLES.createInRenderer poolSetup 7
       { texUB44 [1, 2, 3] with isPKM := true }).2.1.glId = 7 ∧
     (TextureGLES.createInRenderer poolSetup 7
       { texUB44 [1, 2, 3] with isPKM := true }).2.2.any isRemoveTexID = false) :=
  ⟨createInRenderer_compressed_error_paths.1 poolSetup 7 texPVRTC16
     (List.replicate 16 0) rfl rfl rfl,
   createInRenderer_compressed_error_paths.2 poolSetup 7
     { texUB44 [1, 2, 3] with isPKM := true } [1, 2, 3] rfl rfl rfl rfl (by decide)⟩

/-- Claim C5: for the single-channel format the resolvers depend on the
channel source - alpha and red resolve to valid (non-sentinel) internal
and transfer formats, while green, blue and rgb-packed sources resolve to
the GL_NONE sentinel in both resolvers; and on the uncompressed path
createInRenderer performs no upload for those sentinel sources. -/
theorem singleChannel_source_sentinel :
    (mapInternalFormat TextureType.TexTypeSingleChannel WKSingleByteSource.WKSingleAlpha
        ≠ GL_NONE ∧
     mapGLFormat TextureType.TexTypeSingleChannel WKSingleByteSource.WKSingleAlpha
        ≠ GL_NONE) ∧
    (mapInternalFormat TextureType.TexTypeSingleChannel WKSingleByteSource.WKSingleRed
        ≠ GL_NONE ∧
     mapGLFormat TextureType.TexTypeSingleChannel WKSingleByteSource.WKSingleRed
        ≠ GL_NONE) ∧
    (∀ s : WKSingleByteSource,
       s = WKSingleByteSource.WKSingleGreen ∨ s = WKSingleByteSource.WKSingleBlue ∨
         s = WKSingleByteSource.WKSingleRGB →
       mapInternalFormat TextureType.TexTypeSingleChannel s = GL_NONE ∧
       mapGLFormat TextureType.TexTypeSingleChannel s = GL_NONE) ∧
    (∀ (si : Option RenderSetupInfoGLES) (a : Nat) (tex : TextureGLES),
       tex.format = TextureType.TexTypeSingleChannel →
       (tex.byteSource = WKSingleByteSource.WKSingleGreen ∨
        tex.byteSource = WKSingleByteSource.WKSingleBlue ∨
        tex.byteSource = WKSingleByteSource.WKSingleRGB) →
       tex.isPVRTC = false → tex.isPKM = false →
       hasUpload (TextureGLES.createInRenderer si a tex).2.2 = false) := by
  refine ⟨by decide, by decide, ?_, ?_⟩
  · intro s hs
    rcases hs with h | h | h <;> rw [h] <;> exact ⟨rfl, rfl⟩
  · intro si a tex hf hbs hpv hpk
    have hIF : mapInternalFormat tex.format tex.byteSource = GL_NONE := by
      rw [hf]
      rcases hbs with h | h | h <;> rw [h] <;> decide
    by_cases hg : tex.glId = 0
    · rcases htd : tex.texData with _ | d
      · cases hie : tex.isEmptyTexture
        · rw [createInRenderer_no_data si a tex htd hie]
          rfl
        · have hres : TextureGLES.createInRenderer si a tex =
              createFinish (setupCalls si tex a)
                [GLCall.logError LogMsg.unknownTextureType] { tex with glId := a } := by
            simp only [TextureGLES.createInRenderer, TextureGLES.processData,
              htd, hie, hg, hpv, hpk]
            simp [hIF]
          rw [hres]
          exact hasUpload_createFinish _ _ _ (hasUpload_setupCalls si tex a) rfl
      · have hres : TextureGLES.createInRenderer si a tex =
            createFinish (setupCalls si tex a)
              [GLCall.logError LogMsg.unknownTextureType] { tex with glId := a } := by
          simp only [TextureGLES.createInRenderer, TextureGLES.processData,
            htd, hg, hpv, hpk]
          simp [hIF]
        rw [hres]
        exact hasUpload_createFinish _ _ _ (hasUpload_setupCalls si tex a) rfl
    · by_cases hdn : tex.texData = none ∧ tex.isEmptyTexture = false
      · rw [createInRenderer_no_data si a tex hdn.1 hdn.2]
        rfl
      · rw [createInRenderer_already_created si a tex hg hdn]
        rfl

/-- Claim C5 witness: a pending single-channel texture with the green
channel source and a 16-byte buffer produces no upload call. -/
theorem singleChannel_source_sentinel_witness :
    hasUpload (TextureGLES.createInRenderer poolSetup 7
      { texUB44 (List.replicate 16 0) with
          format := TextureType.TexTypeSingleChannel,
          byteSource := WKSingleByteSource.WKSingleGreen }).2.2 = false :=
  singleChannel_source_sentinel.2.2.2 poolSetup 7
    { texUB44 (List.replicate 16 0) with
        format := TextureType.TexTypeSingleChannel,
        byteSource := WKSingleByteSource.WKSingleGreen }
    rfl (Or.inl rfl) rfl rfl

/-- Claim C8: a pending, uncompressed texture constructed with
isEmptyTexture true and no pixel data succeeds in createInRenderer and is
left with the allocator-provided non-zero native handle. -/
theorem createInRenderer_empty_success (si : Option RenderSetupInfoGLES)
    (a : Nat) (tex : TextureGLES)
    (h1 : tex.texData = none) (h2 : tex.isEmptyTexture = true) (h3 : tex.glId = 0)
    (h4 : tex.isPVRTC = false) (h5 : tex.isPKM = false) (ha : a ≠ 0) :
    (TextureGLES.createInRenderer si a tex).1 = true ∧
    (TextureGLES.createInRenderer si a tex).2.1.glId = a ∧
    (TextureGLES.createInRenderer si a tex).2.1.glId ≠ 0 := by
  obtain ⟨u, hres⟩ : ∃ u, TextureGLES.createInRenderer si a tex =
      createFinish (setupCalls si tex a) u { tex with glId := a } := by
    simp only [TextureGLES.createInRenderer, TextureGLES.processData,
      h1, h2, h3, h4, h5]
    simp only [reduceCtorEq, Bool.true_eq_false, and_false, and_self, ite_false,
      if_false, ne_eq, not_true_eq_false, not_false_eq_true, ite_true, if_true,
      false_and, if_neg, not_and]
    split
    · exact ⟨_, rfl⟩
    · exact ⟨_, rfl⟩
  rw [hres]
  exact ⟨rfl, rfl, ha⟩

/-- Claim C8 witness: the concrete empty-marked 4 by 4 texture succeeds
with native handle 7, which is non-zero. -/
theorem createInRenderer_empty_success_witness :
    (TextureGLES.createInRenderer poolSetup 7 texEmpty44).1 = true ∧
    (TextureGLES.createInRenderer poolSetup 7 texEmpty44).2.1.glId = 7 ∧
    (TextureGLES.createInRenderer poolSetup 7 texEmpty44).2.1.glId ≠ 0 :=
  createInRenderer_empty_success poolSetup 7 texEmpty44 rfl rfl rfl rfl rfl
    (by decide)

/-- Claim C9: once removeGeometry has removed handle H (a zero-fade entry
is erased by the first call), a second removeGeometry on H finds no table
entry and is a no-op: the handle is silently skipped, the state is
unchanged and no change records are emitted. -/
theorem removeGeometry_second_call_noop (mgr : GeometryManager) (H now : Nat)
    (rep : GeomSceneRep)
    (hfind : mgr.sceneReps.find? (fun r => r.geomId == H) = some rep)
    (hfade : rep.fade = 0) :
    (mgr.removeGeometry [H] now).1.sceneReps.find? (fun r => r.geomId == H) = none ∧
    (mgr.removeGeometry [H] now).1.removeGeometry [H] now
      = ((mgr.removeGeometry [H] now).1, []) := by
  have h1 : (mgr.removeGeometry [H] now).1
      = ⟨mgr.sceneReps.filter (fun r => !(r.geomId == H))⟩ := by
    unfold GeometryManager.removeGeometry
    simp [List.foldl, hfind, GeomSceneRep.clearContents, hfade]
  have h2 : (mgr.sceneReps.filter (fun r => !(r.geomId == H))).find?
      (fun r => r.geomId == H) = none := by
    apply List.find?_eq_none.mpr
    intro x hx
    have hmem := (List.mem_filter.mp hx).2
    simp at hmem
    simp [hmem]
  refine ⟨?_, ?_⟩
  · rw [h1]
    exact h2
  · rw [h1]
    unfold GeometryManager.removeGeometry
    simp [List.foldl, h2]

/-- Claim C9 witness: the one-entry manager under handle 1 with zero fade:
after the first removal the entry is gone and the second removal is a
no-op with no change records. -/
theorem removeGeometry_second_call_noop_witness :
    (mgrOne.removeGeometry [1] 0).1.sceneReps.find? (fun r => r.geomId == 1) = none ∧
    (mgrOne.removeGeometry [1] 0).1.removeGeometry [1] 0
      = ((mgrOne.removeGeometry [1] 0).1, []) :=
  removeGeometry_second_call_noop mgrOne 1 0 ⟨1, [10, 11], [20], 0⟩ (by decide) rfl

end WhirlyKit
